import Mathlib

/-!
Verification of the ecommerce admin portal's client-side logic.

The definitions below are shallow embeddings of the React view code:
pure render helpers become Lean functions, and the event handlers
(delete / submit handlers) become explicit state-passing functions that
return the updated component state together with the list of effects
(HTTP requests, page reloads, re-fetches) the handler emits.  A re-fetch
that on completion overwrites a view's local state is modelled by
passing the server's current collection as an argument and installing it
when the handler's success path runs the fetch.
-/

namespace EcomAdmin

/-- Effects a handler can emit: HTTP requests to the backend plus the
page-reload performed by the Orders delete handler. -/
inductive Effect where
  | deleteProductReq (id : Nat)
  | deleteOrderReq (id : Nat)
  | deleteInventoryReq (id : Nat)
  | deleteCategoryReq (id : Nat)
  | deleteSubcategoryReq (id : Nat)
  | fetchProductsReq
  | fetchOrdersReq
  | fetchInventoryReq
  | fetchHierarchyReq
  | postCategoryAdd (name : String)
  | putCategoryEdit (id : Nat) (name : String)
  | postSubAdd (name : String) (parentId : Nat)
  | putSubEdit (id : Nat) (name : String)
  | pageReload
deriving Repr, DecidableEq

/-- Is this effect an HTTP DELETE request? -/
def Effect.isDeleteReq : Effect → Bool
  | .deleteProductReq _ => true
  | .deleteOrderReq _ => true
  | .deleteInventoryReq _ => true
  | .deleteCategoryReq _ => true
  | .deleteSubcategoryReq _ => true
  | _ => false

/-! ### Inventory Management view (InventoryManagement.jsx) -/

/-- An inventory record as rendered by the Inventory Management table. -/
structure InventoryItem where
  id : Nat
  product_id : Nat
  quantity_in_stock : Int
  reorder_point : Int
  warehouse_location : Option String
deriving Repr, DecidableEq

/-- `const isLowStock = item.quantity_in_stock < item.reorder_point;`
(InventoryManagement.jsx, row render). -/
def isLowStock (item : InventoryItem) : Bool :=
  item.quantity_in_stock < item.reorder_point

/-- Badge text: `{isLowStock ? 'LOW' : 'OK'}`. -/
def inventoryBadgeText (item : InventoryItem) : String :=
  if isLowStock item then "LOW" else "OK"

/-- Badge color: `bg={isLowStock ? 'danger' : 'success'}`. -/
def inventoryBadgeVariant (item : InventoryItem) : String :=
  if isLowStock item then "danger" else "success"

/-- Row highlight: `className={isLowStock ? 'table-warning' : ''}`. -/
def inventoryRowClass (item : InventoryItem) : String :=
  if isLowStock item then "table-warning" else ""

/-- `const [itemsPerPage] = useState(10);` -/
def itemsPerPage : Nat := 10

/-- `Math.ceil(a / b)` for natural `a` and positive natural `b`. -/
def jsCeilDiv (a b : Nat) : Nat := (a + (b - 1)) / b

/-- `setTotalPages(Math.ceil(invData.data.inventory.length / itemsPerPage));`
(fetchInventoryData). -/
def computeTotalPages (inventory : List InventoryItem) : Nat :=
  jsCeilDiv inventory.length itemsPerPage

/-- `inventory.slice(startIndex, endIndex)` with
`startIndex = (currentPage - 1) * itemsPerPage` and
`endIndex = startIndex + itemsPerPage` (getCurrentInventory). -/
def getCurrentInventory (inventory : List InventoryItem) (currentPage : Nat) :
    List InventoryItem :=
  let startIndex := (currentPage - 1) * itemsPerPage
  let endIndex := startIndex + itemsPerPage
  (inventory.drop startIndex).take (endIndex - startIndex)

/-- A click on one of the pagination controls rendered by
renderPaginationItems: Prev, Next, or a numbered page item. -/
inductive NavAction where
  | prev
  | next
  | page (n : Nat)
deriving Repr, DecidableEq

/-- Whether the control is clickable: Prev carries
`disabled={currentPage === 1}`, Next carries
`disabled={currentPage === totalPages}`, and numbered items are rendered
for `1 <= number <= totalPages` only. -/
def navOffered (totalPages currentPage : Nat) : NavAction → Bool
  | .prev => currentPage != 1
  | .next => currentPage != totalPages
  | .page n => 1 ≤ n && n ≤ totalPages

/-- The page `handlePageChange` receives from each control's onClick. -/
def navApply (currentPage : Nat) : NavAction → Nat
  | .prev => currentPage - 1
  | .next => currentPage + 1
  | .page n => n

/-- Run a sequence of clicks; a click on a control that is not offered
(disabled or not rendered) leaves the page unchanged. -/
def runNav (totalPages : Nat) (currentPage : Nat) : List NavAction → Nat
  | [] => currentPage
  | a :: rest =>
      if navOffered totalPages currentPage a then
        runNav totalPages (navApply currentPage a) rest
      else
        runNav totalPages currentPage rest

/-- The form values of the inventory add/edit modal after yup coercion. -/
structure InventoryFormData where
  product_id : Int
  quantity_in_stock : Int
  warehouse_location : String
  reorder_point : Int
deriving Repr, DecidableEq

/-- The JSON body assembled by the Inventory view's onSubmit; a `none`
field is absent from the serialized object (the code runs
`delete payload.product_id` before an edit). -/
structure InventoryPayload where
  product_id : Option Int
  quantity_in_stock : Int
  warehouse_location : Option String
  reorder_point : Int
deriving Repr, DecidableEq

/-- The keys present in `JSON.stringify(payload)`, in object order. -/
def payloadKeys (payload : InventoryPayload) : List String :=
  (match payload.product_id with
    | some _ => ["product_id"]
    | none => []) ++
    ["quantity_in_stock", "warehouse_location", "reorder_point"]

/-- Inventory onSubmit, up to the fetch call: builds the payload
(`warehouse_location: data.warehouse_location || null`), then picks
endpoint/method and deletes `product_id` when editing an existing
record.  Returns (payload, method, endpoint). -/
def buildInventorySubmission (isEditing : Bool) (currentInventoryId : Option Nat)
    (data : InventoryFormData) : InventoryPayload × String × String :=
  let payload : InventoryPayload :=
    { product_id := some data.product_id,
      quantity_in_stock := data.quantity_in_stock,
      warehouse_location :=
        if data.warehouse_location = "" then none else some data.warehouse_location,
      reorder_point := data.reorder_point }
  match isEditing, currentInventoryId with
  | true, some cid =>
      ({ payload with product_id := none }, "PUT", "/inventory/edit/" ++ toString cid)
  | _, _ => (payload, "POST", "/inventory/add")

/-- `readOnly={isEditing}` on the product selector of the modal. -/
def inventoryProductSelectReadOnly (isEditing : Bool) : Bool := isEditing

/-- Inventory handleDelete: blocking confirm, DELETE by id, and on
success a full `fetchInventoryData()` re-fetch (modelled by installing
the server's current list). -/
def inventoryHandleDelete (inventory : List InventoryItem) (inventoryId : Nat)
    (confirmed ok : Bool) (serverInventory : List InventoryItem) :
    List InventoryItem × List Effect :=
  if confirmed then
    if ok then
      (serverInventory, [Effect.deleteInventoryReq inventoryId, Effect.fetchInventoryReq])
    else
      (inventory, [Effect.deleteInventoryReq inventoryId])
  else
    (inventory, [])

/-! ### Products list view (Products.jsx) -/

/-- A product as consumed by the Products list view. -/
structure Product where
  product_id : Nat
  name : String
  price : Int
  stock_quantity : Int
deriving Repr, DecidableEq

/-- Local state of the Products view: the visible grid (`products`) and
the full fetched collection (`allProducts`). -/
structure ProductsState where
  products : List Product
  allProducts : List Product
deriving Repr, DecidableEq

/-- Products deleteProduct: blocking confirm, DELETE by id, then on
success `products.filter(p => p.product_id !== productId)` is written to
both `products` and `allProducts`; no re-fetch. -/
def deleteProduct (st : ProductsState) (productId : Nat) (confirmed ok : Bool) :
    ProductsState × List Effect :=
  if confirmed then
    if ok then
      let updatedProducts := st.products.filter (fun p => p.product_id != productId)
      ({ products := updatedProducts, allProducts := updatedProducts },
        [Effect.deleteProductReq productId])
    else
      (st, [Effect.deleteProductReq productId])
  else
    (st, [])

/-- getStockStatus (Products.jsx): a fixed threshold of 10 on
`stock_quantity`, independent of any reorder point. -/
def getStockStatus (product : Product) : String :=
  if product.stock_quantity = 0 then "out-of-stock"
  else if product.stock_quantity < 10 then "low-stock"
  else "in-stock"

/-- getStockBadge: the badge label produced for each status (the default
switch case renders no badge, hence `none`). -/
def getStockBadgeLabel (product : Product) : Option String :=
  let status := getStockStatus product
  if status = "out-of-stock" then some "Out of Stock"
  else if status = "low-stock" then some "Low Stock"
  else if status = "in-stock" then some "In Stock"
  else none

/-- JavaScript `String.prototype.toLowerCase()` (basic-latin letters),
written by structural recursion over the character list so that the
kernel can evaluate it on literals. -/
def jsToLower (s : String) : String :=
  String.mk (s.data.map Char.toLower)

/-- Is `pattern` a contiguous substring of `l` (JavaScript
`String.prototype.includes` over the character list)? -/
def charListIncludes (pattern : List Char) : List Char → Bool
  | [] => pattern.isEmpty
  | c :: rest => pattern.isPrefixOf (c :: rest) || charListIncludes pattern rest

/-- `s.includes(pattern)` on strings. -/
def strIncludes (s pattern : String) : Bool :=
  charListIncludes pattern.data s.data

/-- The search predicate used by searchProduct / handleSortChange:
`product.name && product.name.toLowerCase().includes(term.toLowerCase())`. -/
def nameMatches (term : String) (product : Product) : Bool :=
  product.name != "" && strIncludes (jsToLower product.name) (jsToLower term)

/-- handleSortChange (Products.jsx): the three sort/filter cases applied
to a copy of `allProducts`; the default case restores `allProducts`
unfiltered; in the non-default cases an active search term is re-applied
to the result. -/
def handleSortChange (allProducts : List Product) (searchTerm : String)
    (value : String) : List Product :=
  let sorted : Option (List Product) :=
    if value = "pricelow" then
      some (allProducts.mergeSort (fun a b => a.price ≤ b.price))
    else if value = "pricehigh" then
      some (allProducts.mergeSort (fun a b => b.price ≤ a.price))
    else if value = "lowstock" then
      some (allProducts.filter (fun product => product.stock_quantity < 10))
    else
      none
  match sorted with
  | none => allProducts
  | some l => if searchTerm != "" then l.filter (nameMatches searchTerm) else l

/-! ### Orders list view (Orders.jsx) -/

/-- An order row of the Orders list. -/
structure Order where
  order_id : Nat
  user_email : String
  status : String
  total_amount : Int
deriving Repr, DecidableEq

/-- Local state of the Orders view: full fetched list and the
status-filtered visible list. -/
structure OrdersState where
  orderList : List Order
  filteredOrders : List Order
deriving Repr, DecidableEq

/-- Orders ActionColumn handleDelete: blocking confirm, DELETE by id;
on success it alerts and runs `window.location.reload()`; it never
touches `orderList`/`filteredOrders` directly. -/
def ordersHandleDelete (st : OrdersState) (orderId : Nat) (confirmed ok : Bool) :
    OrdersState × List Effect :=
  if confirmed then
    if ok then
      (st, [Effect.deleteOrderReq orderId, Effect.pageReload])
    else
      (st, [Effect.deleteOrderReq orderId])
  else
    (st, [])

/-- getStatusClass (Orders.jsx StatusColumn): switch on
`status?.toLowerCase()`; `none` models an undefined status. -/
def getStatusClass (status : Option String) : String :=
  match status with
  | none => "bg-light text-dark"
  | some s =>
    let l := jsToLower s
    if l = "delivered" then "bg-success"
    else if l = "completed" then "bg-success"
    else if l = "cancelled" then "bg-danger"
    else if l = "shipped" then "bg-info"
    else if l = "processing" then "bg-warning"
    else if l = "pending" then "bg-secondary"
    else "bg-light text-dark"

/-! ### Order Details view (OrderDetails.jsx) -/

/-- `{order.status !== 'Cancelled' && order.status !== 'Completed' && (<Button ... Mark as Completed ...>)}` -/
def markAsCompletedOffered (status : String) : Bool :=
  status != "Cancelled" && status != "Completed"

/-- `{order.status !== 'Cancelled' && (<Button ... Cancel Order ...>)}` -/
def cancelOrderOffered (status : String) : Bool :=
  status != "Cancelled"

/-! ### Category Hierarchy Editor (CategoryManagement, hierarchy variant) -/

/-- A node of the three-level nested hierarchy returned by
GET /category/all-nested. -/
inductive CatNode where
  | node (id : Nat) (name : String) (children : List CatNode)

/-- onCategorySubmit: PUT /category/edit/:id when editing an existing L1
category, otherwise POST /category/add with an empty `children` list;
on a 2xx response it runs `fetchAllNestedCategories()` (modelled by
installing `serverTree`), otherwise the hierarchy state is untouched. -/
def onCategorySubmit (hierarchy : List CatNode) (isEditingCategory : Bool)
    (currentCategoryId : Option Nat) (categoryName : String) (ok : Bool)
    (serverTree : List CatNode) : List CatNode × List Effect :=
  let req : Effect :=
    match isEditingCategory, currentCategoryId with
    | true, some cid => Effect.putCategoryEdit cid categoryName
    | _, _ => Effect.postCategoryAdd categoryName
  if ok then
    (serverTree, [req, Effect.fetchHierarchyReq])
  else
    (hierarchy, [req])

/-- onSubcategorySubmit: PUT /category/sub/edit/:id when an L2/L3 item
is being edited, POST /category/sub/add {name, parent_id} when adding
under a chosen parent, and an error banner (no request) in the invalid
state with neither; a 2xx response triggers the full hierarchy
re-fetch. -/
def onSubcategorySubmit (hierarchy : List CatNode) (currentSubcategoryId : Option Nat)
    (currentParentId : Option Nat) (itemName : String) (ok : Bool)
    (serverTree : List CatNode) : List CatNode × List Effect :=
  match currentSubcategoryId with
  | some sid =>
      if ok then
        (serverTree, [Effect.putSubEdit sid itemName, Effect.fetchHierarchyReq])
      else
        (hierarchy, [Effect.putSubEdit sid itemName])
  | none =>
      match currentParentId with
      | some pid =>
          if ok then
            (serverTree, [Effect.postSubAdd itemName pid, Effect.fetchHierarchyReq])
          else
            (hierarchy, [Effect.postSubAdd itemName pid])
      | none => (hierarchy, [])

/-- Hierarchy handleDelete: blocking confirm, then DELETE on the
category or subcategory endpoint by id; a 2xx response triggers the full
hierarchy re-fetch. -/
def hierarchyHandleDelete (hierarchy : List CatNode) (itemId : Nat)
    (endpointType : String) (confirmed ok : Bool) (serverTree : List CatNode) :
    List CatNode × List Effect :=
  let req : Effect :=
    if endpointType = "category" then Effect.deleteCategoryReq itemId
    else Effect.deleteSubcategoryReq itemId
  if confirmed then
    if ok then
      (serverTree, [req, Effect.fetchHierarchyReq])
    else
      (hierarchy, [req])
  else
    (hierarchy, [])

/-! ### ProductEdit view (ProductEdit.jsx) -/

/-- One row of the variations field array. -/
structure VariationForm where
  name : String
  sku : String
  size : String
  color : String
deriving Repr, DecidableEq

/-- The form fields managed by react-hook-form in ProductEdit. -/
structure ProductFormState where
  name : String
  description : String
  long_description : String
  price : Int
  stock_quantity : Int
  category_id : String
  variations : List VariationForm
deriving Repr, DecidableEq

/-- The `defaultValues` passed to useForm; `reset()` restores these. -/
def productFormDefaults : ProductFormState :=
  { name := "", description := "", long_description := "", price := 0,
    stock_quantity := 0, category_id := "", variations := [] }

/-- The dismissible banner state `{ message, variant }`. -/
structure SubmitStatus where
  message : String
  variant : String
deriving Repr, DecidableEq

/-- Outcome of the submission fetch: either the fetch itself threw, or
a response arrived with `ok`, numeric status, statusText and body
text. -/
inductive FetchOutcome where
  | thrown (msg : String)
  | response (ok : Bool) (status : Nat) (statusText : String) (bodyText : String)
deriving Repr, DecidableEq

/-- Outcome of the `await response.json()` the code runs after its
ok-check: the parsed value is discarded, so only whether parsing threw
— and, when it did, the thrown SyntaxError's message — is observable. -/
inductive JsonParseOutcome where
  | parsed
  | parseError (msg : String)
deriving Repr, DecidableEq

/-- ProductEdit onSubmit, after the fetch resolves: a non-2xx response
throws with the status and body text; on a 2xx response the code then
runs `await response.json()`, which throws on a non-JSON body, and only
when that parse succeeds is the success banner set and, in create mode
only, the form reset and the preview cleared.  Every thrown error lands
in the catch block: danger banner built from the error's message, form
and preview untouched.  Returns (form, banner, previewImage). -/
def productEditOnSubmit (isEditing : Bool) (form : ProductFormState)
    (previewImage : Option String) (outcome : FetchOutcome)
    (parse : JsonParseOutcome) : ProductFormState × SubmitStatus × Option String :=
  let verb := if isEditing then "update" else "add"
  match outcome with
  | .response true _ _ _ =>
      match parse with
      | .parsed =>
          let successMessage :=
            if isEditing then "Product updated successfully!" else "Product added successfully!"
          if isEditing then
            (form, { message := successMessage, variant := "success" }, previewImage)
          else
            (productFormDefaults, { message := successMessage, variant := "success" }, none)
      | .parseError m =>
          (form,
            { message := "Failed to " ++ verb ++ " product: " ++ m, variant := "danger" },
            previewImage)
  | .response false status statusText bodyText =>
      let errText := if bodyText = "" then statusText else bodyText
      let thrownMsg :=
        "Server returned status " ++ toString status ++ ". Error: " ++ errText
      (form,
        { message := "Failed to " ++ verb ++ " product: " ++ thrownMsg,
          variant := "danger" },
        previewImage)
  | .thrown m =>
      (form,
        { message := "Failed to " ++ verb ++ " product: " ++ m, variant := "danger" },
        previewImage)

/-! ## Theorems -/

/-- C1: In the Inventory Management table, the LOW badge (with the
danger variant and the warning row highlight) is shown iff
`quantity_in_stock < reorder_point`; when the two are equal the record
is shown as OK with no highlight. -/
theorem c1_low_badge_iff_below_reorder_point (item : InventoryItem) :
    ((inventoryBadgeText item = "LOW" ∧ inventoryBadgeVariant item = "danger" ∧
        inventoryRowClass item = "table-warning") ↔
      item.quantity_in_stock < item.reorder_point) ∧
    (item.quantity_in_stock = item.reorder_point →
      inventoryBadgeText item = "OK" ∧ inventoryRowClass item = "") := by
  unfold inventoryBadgeText inventoryBadgeVariant inventoryRowClass isLowStock
  by_cases h : item.quantity_in_stock < item.reorder_point
  · simp [h]
    omega
  · simp [h]

/-- Witness for C1 at a concrete record with stock equal to the reorder
point: shown as OK, not LOW. -/
theorem c1_low_badge_iff_below_reorder_point_witness :
    inventoryBadgeText ⟨1, 2, 10, 10, none⟩ = "OK" ∧
      inventoryRowClass ⟨1, 2, 10, 10, none⟩ = "" :=
  (c1_low_badge_iff_below_reorder_point ⟨1, 2, 10, 10, none⟩).2 rfl

/-- C3 counterexample: the claim says the Cancel Order action is hidden
once the order is Completed, but the render guard is only
`order.status !== 'Cancelled'`, so a Completed order still offers the
Cancel Order button. -/
theorem c3_cancel_offered_on_completed : cancelOrderOffered "Completed" = true := by
  decide

/-- C3 (amended): Mark as Completed is offered exactly when the status
is neither Completed nor Cancelled; Cancel Order is offered exactly when
the status is not Cancelled — so it is still offered on a Completed
order, and only Cancelled orders can receive neither action. -/
theorem c3_order_actions_offered (status : String) :
    (markAsCompletedOffered status = true ↔
      (status ≠ "Completed" ∧ status ≠ "Cancelled")) ∧
    (cancelOrderOffered status = true ↔ status ≠ "Cancelled") := by
  unfold markAsCompletedOffered cancelOrderOffered
  simp [and_comm]

/-- Witness for C3 (amended) at status "Shipped": both actions offered. -/
theorem c3_order_actions_offered_witness :
    markAsCompletedOffered "Shipped" = true ∧ cancelOrderOffered "Shipped" = true :=
  ⟨(c3_order_actions_offered "Shipped").1.mpr (by decide),
    (c3_order_actions_offered "Shipped").2.mpr (by decide)⟩

/-- C8: the order status badge class is a pure, case-insensitive
function of the status string: completed/delivered map to success,
cancelled to danger, shipped to info, processing to warning, pending to
secondary, and anything else — undefined included — to the light/dark
fallback. -/
theorem c8_status_badge_class_mapping :
    getStatusClass none = "bg-light text-dark" ∧
    ∀ s : String,
      ((jsToLower s = "completed" ∨ jsToLower s = "delivered") →
        getStatusClass (some s) = "bg-success") ∧
      (jsToLower s = "cancelled" → getStatusClass (some s) = "bg-danger") ∧
      (jsToLower s = "shipped" → getStatusClass (some s) = "bg-info") ∧
      (jsToLower s = "processing" → getStatusClass (some s) = "bg-warning") ∧
      (jsToLower s = "pending" → getStatusClass (some s) = "bg-secondary") ∧
      (jsToLower s ≠ "completed" → jsToLower s ≠ "delivered" → jsToLower s ≠ "cancelled" →
        jsToLower s ≠ "shipped" → jsToLower s ≠ "processing" → jsToLower s ≠ "pending" →
        getStatusClass (some s) = "bg-light text-dark") := by
  refine ⟨rfl, fun s => ⟨?_, ?_, ?_, ?_, ?_, ?_⟩⟩ <;>
    simp only [getStatusClass]
  · rintro (h | h) <;> simp [h]
  · intro h; simp [h]
  · intro h; simp [h]
  · intro h; simp [h]
  · intro h; simp [h]
  · intro h1 h2 h3 h4 h5 h6
    simp [h1, h2, h3, h4, h5, h6]

/-- Witness for C8 at mixed-case concrete statuses. -/
theorem c8_status_badge_class_mapping_witness :
    getStatusClass (some "Delivered") = "bg-success" ∧
      getStatusClass (some "CANCELLED") = "bg-danger" ∧
      getStatusClass (some "Refunded") = "bg-light text-dark" :=
  ⟨(c8_status_badge_class_mapping.2 "Delivered").1 (Or.inr (by decide)),
    (c8_status_badge_class_mapping.2 "CANCELLED").2.1 (by decide),
    (c8_status_badge_class_mapping.2 "Refunded").2.2.2.2.2 (by decide) (by decide)
      (by decide) (by decide) (by decide) (by decide)⟩

/-- Helper: starting inside bounds, every offered pagination click keeps
the current page between 1 and totalPages. -/
theorem runNav_bounds (tp : Nat) :
    ∀ (acts : List NavAction) (p : Nat), 1 ≤ p → p ≤ tp →
      1 ≤ runNav tp p acts ∧ runNav tp p acts ≤ tp := by
  intro acts
  induction acts with
  | nil => intro p h1 h2; exact ⟨h1, h2⟩
  | cons a rest ih =>
      intro p h1 h2
      by_cases ho : navOffered tp p a = true
      · rw [runNav, if_pos ho]
        apply ih
        · cases a with
          | prev => simp [navOffered] at ho; simp [navApply]; omega
          | next => simp [navApply]
          | page n => simp [navOffered] at ho; simp [navApply]; omega
        · cases a with
          | prev => simp [navApply]; omega
          | next => simp [navOffered] at ho; simp [navApply]; omega
          | page n => simp [navOffered] at ho; simp [navApply]; omega
      · rw [runNav, if_neg ho]
        exact ih p h1 h2

/-- C2: the Inventory view's page count is the ceiling of
length / itemsPerPage (least page count covering all records); the
visible rows are exactly the slice
[(currentPage-1)*itemsPerPage, currentPage*itemsPerPage) of the fetched
array; and any sequence of clicks on the offered pagination controls,
starting from page 1, keeps the current page between 1 and the last
page. -/
theorem c2_inventory_pagination (inventory : List InventoryItem)
    (currentPage : Nat) (acts : List NavAction) :
    (inventory.length ≤ itemsPerPage * computeTotalPages inventory ∧
      ∀ m : Nat, inventory.length ≤ itemsPerPage * m →
        computeTotalPages inventory ≤ m) ∧
    (∀ i : Nat, (getCurrentInventory inventory currentPage)[i]? =
      if i < itemsPerPage then
        inventory[(currentPage - 1) * itemsPerPage + i]?
      else none) ∧
    (inventory ≠ [] →
      1 ≤ runNav (computeTotalPages inventory) 1 acts ∧
      runNav (computeTotalPages inventory) 1 acts ≤ computeTotalPages inventory) := by
  refine ⟨⟨?_, ?_⟩, ?_, ?_⟩
  · unfold computeTotalPages jsCeilDiv itemsPerPage
    omega
  · intro m hm
    unfold computeTotalPages jsCeilDiv itemsPerPage at *
    omega
  · intro i
    unfold getCurrentInventory itemsPerPage
    simp only [Nat.add_sub_cancel_left, List.getElem?_take, List.getElem?_drop]
  · intro hne
    have hlen : 0 < inventory.length := List.length_pos.mpr hne
    have htp : 1 ≤ computeTotalPages inventory := by
      unfold computeTotalPages jsCeilDiv itemsPerPage
      omega
    exact runNav_bounds _ acts 1 le_rfl htp

/-- Witness for C2 on a concrete two-record inventory and a concrete
click sequence. -/
theorem c2_inventory_pagination_witness :
    1 ≤ runNav (computeTotalPages [⟨1, 2, 3, 10, none⟩, ⟨2, 3, 50, 10, none⟩]) 1
        [NavAction.next, NavAction.prev, NavAction.page 1] ∧
      runNav (computeTotalPages [⟨1, 2, 3, 10, none⟩, ⟨2, 3, 50, 10, none⟩]) 1
          [NavAction.next, NavAction.prev, NavAction.page 1] ≤
        computeTotalPages [⟨1, 2, 3, 10, none⟩, ⟨2, 3, 50, 10, none⟩] :=
  (c2_inventory_pagination [⟨1, 2, 3, 10, none⟩, ⟨2, 3, 50, 10, none⟩] 1
    [NavAction.next, NavAction.prev, NavAction.page 1]).2.2 (by decide)

/-- C5: for order, product, and category deletes alike, a confirmed
action issues exactly one HTTP DELETE, aimed at that entity's id, and a
declined confirmation issues nothing and leaves the local state
untouched. -/
theorem c5_delete_confirm_protocol :
    (∀ (st : ProductsState) (productId : Nat) (ok : Bool),
      (deleteProduct st productId true ok).2.filter Effect.isDeleteReq =
          [Effect.deleteProductReq productId] ∧
      deleteProduct st productId false ok = (st, [])) ∧
    (∀ (st : OrdersState) (orderId : Nat) (ok : Bool),
      (ordersHandleDelete st orderId true ok).2.filter Effect.isDeleteReq =
          [Effect.deleteOrderReq orderId] ∧
      ordersHandleDelete st orderId false ok = (st, [])) ∧
    (∀ (hierarchy serverTree : List CatNode) (itemId : Nat)
        (endpointType : String) (ok : Bool),
      (hierarchyHandleDelete hierarchy itemId endpointType true ok
            serverTree).2.filter Effect.isDeleteReq =
          [if endpointType = "category" then Effect.deleteCategoryReq itemId
            else Effect.deleteSubcategoryReq itemId] ∧
      hierarchyHandleDelete hierarchy itemId endpointType false ok serverTree =
        (hierarchy, [])) := by
  refine ⟨?_, ?_, ?_⟩
  · intro st productId ok
    cases ok <;> simp [deleteProduct, Effect.isDeleteReq]
  · intro st orderId ok
    cases ok <;> simp [ordersHandleDelete, Effect.isDeleteReq]
  · intro hierarchy serverTree itemId endpointType ok
    by_cases he : endpointType = "category" <;>
      cases ok <;> simp [hierarchyHandleDelete, Effect.isDeleteReq, he]

/-- C10: the Products stock badge partitions non-negative stock by the
fixed constant 10 — Out of Stock at 0, Low Stock strictly between 0 and
10, In Stock at 10 and above; the classification depends only on
stock_quantity; and the Low Stock sort option (no search active)
filters to exactly the products with stock_quantity < 10. -/
theorem c10_stock_badge_partition (product : Product)
    (hnn : 0 ≤ product.stock_quantity) :
    ((getStockBadgeLabel product = some "Out of Stock" ↔
        product.stock_quantity = 0) ∧
      (getStockBadgeLabel product = some "Low Stock" ↔
        0 < product.stock_quantity ∧ product.stock_quantity < 10) ∧
      (getStockBadgeLabel product = some "In Stock" ↔
        10 ≤ product.stock_quantity)) ∧
    (∀ q : Product, q.stock_quantity = product.stock_quantity →
      getStockStatus q = getStockStatus product) ∧
    (∀ allProducts : List Product,
      handleSortChange allProducts "" "lowstock" =
        allProducts.filter (fun p => p.stock_quantity < 10)) := by
  refine ⟨?_, ?_, ?_⟩
  · unfold getStockBadgeLabel getStockStatus
    by_cases h0 : product.stock_quantity = 0 <;>
      by_cases h10 : product.stock_quantity < 10 <;>
        simp [h0, h10] <;> omega
  · intro q hq
    unfold getStockStatus
    rw [hq]
  · intro allProducts
    simp [handleSortChange]

/-- Witness for C10 at a concrete product with stock 7: Low Stock. -/
theorem c10_stock_badge_partition_witness :
    getStockBadgeLabel ⟨5, "Paracetamol", 40, 7⟩ = some "Low Stock" :=
  ((c10_stock_badge_partition ⟨5, "Paracetamol", 40, 7⟩ (by decide)).1.2.1).mpr
    (by decide)

/-- C4 counterexample: in the Orders view, after a confirmed successful
delete the handler reloads the page instead of removing the id — the
order's id is still present in both local arrays when the handler
finishes, against the claim that it is removed without re-fetching. -/
theorem c4_orders_delete_keeps_local_arrays :
    (ordersHandleDelete
        { orderList := [⟨1, "user@example.com", "Pending", 100⟩],
          filteredOrders := [⟨1, "user@example.com", "Pending", 100⟩] }
        1 true true).1.orderList.map Order.order_id = [1] ∧
    (ordersHandleDelete
        { orderList := [⟨1, "user@example.com", "Pending", 100⟩],
          filteredOrders := [⟨1, "user@example.com", "Pending", 100⟩] }
        1 true true).1.filteredOrders.map Order.order_id = [1] ∧
    Effect.pageReload ∈ (ordersHandleDelete
        { orderList := [⟨1, "user@example.com", "Pending", 100⟩],
          filteredOrders := [⟨1, "user@example.com", "Pending", 100⟩] }
        1 true true).2 := by
  decide

/-- C4 (amended): a confirmed successful delete removes the id from both
local arrays without re-fetching in the Products view only; in the
Orders view it leaves the local arrays untouched and reloads the whole
page; in the Inventory and Categories views it re-fetches the owning
collection. -/
theorem c4_delete_refresh_policy :
    (∀ (st : ProductsState) (productId : Nat),
      (deleteProduct st productId true true).1.products.all
          (fun p => p.product_id != productId) = true ∧
      (deleteProduct st productId true true).1.allProducts.all
          (fun p => p.product_id != productId) = true ∧
      (deleteProduct st productId true true).2 = [Effect.deleteProductReq productId]) ∧
    (∀ (st : OrdersState) (orderId : Nat),
      ordersHandleDelete st orderId true true =
        (st, [Effect.deleteOrderReq orderId, Effect.pageReload])) ∧
    (∀ (inventory serverInventory : List InventoryItem) (inventoryId : Nat),
      inventoryHandleDelete inventory inventoryId true true serverInventory =
        (serverInventory,
          [Effect.deleteInventoryReq inventoryId, Effect.fetchInventoryReq])) ∧
    (∀ (hierarchy serverTree : List CatNode) (itemId : Nat) (endpointType : String),
      hierarchyHandleDelete hierarchy itemId endpointType true true serverTree =
        (serverTree,
          [if endpointType = "category" then Effect.deleteCategoryReq itemId
            else Effect.deleteSubcategoryReq itemId,
            Effect.fetchHierarchyReq])) := by
  refine ⟨?_, ?_, ?_, ?_⟩
  · intro st productId
    refine ⟨?_, ?_, rfl⟩ <;>
      simp [deleteProduct, List.all_eq_true, List.mem_filter]
  · intro st orderId
    rfl
  · intro inventory serverInventory inventoryId
    rfl
  · intro hierarchy serverTree itemId endpointType
    by_cases he : endpointType = "category" <;>
      simp [hierarchyHandleDelete, he]

/-- C6: in the hierarchy editor every completed mutation — add/edit L1,
add/edit L2 or L3, delete at any level — issues a full hierarchy
re-fetch and installs the server's tree; on failure the local tree is
untouched; in no case is the local tree patched to anything other than
its old value or the freshly fetched server tree. -/
theorem c6_hierarchy_mutations_refetch :
    (∀ (hierarchy serverTree : List CatNode) (isEditingCategory : Bool)
        (currentCategoryId : Option Nat) (categoryName : String),
      (onCategorySubmit hierarchy isEditingCategory currentCategoryId
            categoryName true serverTree).1 = serverTree ∧
      Effect.fetchHierarchyReq ∈ (onCategorySubmit hierarchy isEditingCategory
            currentCategoryId categoryName true serverTree).2 ∧
      (onCategorySubmit hierarchy isEditingCategory currentCategoryId
            categoryName false serverTree).1 = hierarchy) ∧
    (∀ (hierarchy serverTree : List CatNode) (sid : Nat)
        (parentId : Option Nat) (itemName : String),
      onSubcategorySubmit hierarchy (some sid) parentId itemName true serverTree =
        (serverTree, [Effect.putSubEdit sid itemName, Effect.fetchHierarchyReq]) ∧
      (onSubcategorySubmit hierarchy (some sid) parentId itemName false
            serverTree).1 = hierarchy) ∧
    (∀ (hierarchy serverTree : List CatNode) (pid : Nat) (itemName : String),
      onSubcategorySubmit hierarchy none (some pid) itemName true serverTree =
        (serverTree, [Effect.postSubAdd itemName pid, Effect.fetchHierarchyReq]) ∧
      (onSubcategorySubmit hierarchy none (some pid) itemName false
            serverTree).1 = hierarchy) ∧
    (∀ (hierarchy serverTree : List CatNode) (itemId : Nat)
        (endpointType : String) (ok : Bool),
      (hierarchyHandleDelete hierarchy itemId endpointType true true
            serverTree).1 = serverTree ∧
      Effect.fetchHierarchyReq ∈ (hierarchyHandleDelete hierarchy itemId
            endpointType true true serverTree).2 ∧
      (hierarchyHandleDelete hierarchy itemId endpointType true false
            serverTree).1 = hierarchy ∧
      ((hierarchyHandleDelete hierarchy itemId endpointType true ok
            serverTree).1 = hierarchy ∨
        (hierarchyHandleDelete hierarchy itemId endpointType true ok
            serverTree).1 = serverTree)) := by
  refine ⟨?_, ?_, ?_, ?_⟩
  · intro hierarchy serverTree isEditingCategory currentCategoryId categoryName
    refine ⟨rfl, ?_, rfl⟩
    simp [onCategorySubmit]
  · intro hierarchy serverTree sid parentId itemName
    exact ⟨rfl, rfl⟩
  · intro hierarchy serverTree pid itemName
    exact ⟨rfl, rfl⟩
  · intro hierarchy serverTree itemId endpointType ok
    refine ⟨rfl, ?_, rfl, ?_⟩
    · simp [hierarchyHandleDelete]
    · cases ok
      · exact Or.inl rfl
      · exact Or.inr rfl

/-- C9: editing an inventory record sends a PUT whose JSON body holds
exactly quantity_in_stock, warehouse_location and reorder_point —
product_id is deleted before sending — and the product selector is
read-only while editing, so an edit cannot rebind the record to another
product. -/
theorem c9_inventory_edit_payload_excludes_product (cid : Nat)
    (data : InventoryFormData) :
    (buildInventorySubmission true (some cid) data).1.product_id = none ∧
    payloadKeys (buildInventorySubmission true (some cid) data).1 =
      ["quantity_in_stock", "warehouse_location", "reorder_point"] ∧
    (buildInventorySubmission true (some cid) data).2.1 = "PUT" ∧
    (buildInventorySubmission true (some cid) data).2.2 =
      "/inventory/edit/" ++ toString cid ∧
    (buildInventorySubmission true (some cid) data).1.quantity_in_stock =
      data.quantity_in_stock ∧
    (buildInventorySubmission true (some cid) data).1.reorder_point =
      data.reorder_point ∧
    inventoryProductSelectReadOnly true = true := by
  simp [buildInventorySubmission, payloadKeys, inventoryProductSelectReadOnly]

/-- C7 counterexample: a 2xx response whose body is not valid JSON (an
empty body suffices — `await response.json()` throws) in create mode
yields a danger banner and leaves the form as the user entered it, not
the success banner and reset the claim asserts for every 2xx
response. -/
theorem c7_twoxx_unparseable_body_no_reset :
    (productEditOnSubmit false
        ⟨"Paracetamol 500mg", "pain relief", "long text", 40, 5, "3", []⟩ none
        (FetchOutcome.response true 200 "OK" "")
        (JsonParseOutcome.parseError "Unexpected end of JSON input")).2.1.variant =
      "danger" ∧
    (productEditOnSubmit false
        ⟨"Paracetamol 500mg", "pain relief", "long text", 40, 5, "3", []⟩ none
        (FetchOutcome.response true 200 "OK" "")
        (JsonParseOutcome.parseError "Unexpected end of JSON input")).1 =
      ⟨"Paracetamol 500mg", "pain relief", "long text", 40, 5, "3", []⟩ := by
  exact ⟨rfl, rfl⟩

/-- C7 (amended): ProductEdit submissions — a 2xx response whose body
parses as JSON resets the form to its defaults, clears the preview and
shows a success banner in create mode, and leaves the form untouched
with a success banner in edit mode; any error — a thrown fetch, a
non-2xx response, or a 2xx response whose body fails JSON parsing —
shows a danger banner carrying the error text (the server's error text
for non-2xx responses) and leaves every field the user entered
intact. -/
theorem c7_product_edit_submit_outcomes (isEditing : Bool)
    (form : ProductFormState) (previewImage : Option String) :
    (∀ (status : Nat) (statusText bodyText : String),
      productEditOnSubmit false form previewImage
          (FetchOutcome.response true status statusText bodyText)
          JsonParseOutcome.parsed =
        (productFormDefaults,
          { message := "Product added successfully!", variant := "success" },
          none)) ∧
    (∀ (status : Nat) (statusText bodyText : String),
      productEditOnSubmit true form previewImage
          (FetchOutcome.response true status statusText bodyText)
          JsonParseOutcome.parsed =
        (form,
          { message := "Product updated successfully!", variant := "success" },
          previewImage)) ∧
    (∀ (status : Nat) (statusText bodyText m : String),
      (productEditOnSubmit isEditing form previewImage
          (FetchOutcome.response true status statusText bodyText)
          (JsonParseOutcome.parseError m)).1 = form ∧
      (productEditOnSubmit isEditing form previewImage
          (FetchOutcome.response true status statusText bodyText)
          (JsonParseOutcome.parseError m)).2.1.variant = "danger" ∧
      (∃ pre : String,
        (productEditOnSubmit isEditing form previewImage
            (FetchOutcome.response true status statusText bodyText)
            (JsonParseOutcome.parseError m)).2.1.message = pre ++ m) ∧
      (productEditOnSubmit isEditing form previewImage
          (FetchOutcome.response true status statusText bodyText)
          (JsonParseOutcome.parseError m)).2.2 = previewImage) ∧
    (∀ (status : Nat) (statusText bodyText : String) (parse : JsonParseOutcome),
      bodyText ≠ "" →
      (productEditOnSubmit isEditing form previewImage
          (FetchOutcome.response false status statusText bodyText) parse).1 = form ∧
      (productEditOnSubmit isEditing form previewImage
          (FetchOutcome.response false status statusText bodyText) parse).2.1.variant =
        "danger" ∧
      (∃ pre : String,
        (productEditOnSubmit isEditing form previewImage
            (FetchOutcome.response false status statusText bodyText)
            parse).2.1.message = pre ++ bodyText) ∧
      (productEditOnSubmit isEditing form previewImage
          (FetchOutcome.response false status statusText bodyText) parse).2.2 =
        previewImage) ∧
    (∀ (m : String) (parse : JsonParseOutcome),
      (productEditOnSubmit isEditing form previewImage (FetchOutcome.thrown m)
          parse).1 = form ∧
      (productEditOnSubmit isEditing form previewImage (FetchOutcome.thrown m)
          parse).2.1.variant = "danger" ∧
      (∃ pre : String,
        (productEditOnSubmit isEditing form previewImage (FetchOutcome.thrown m)
            parse).2.1.message = pre ++ m) ∧
      (productEditOnSubmit isEditing form previewImage (FetchOutcome.thrown m)
          parse).2.2 = previewImage) := by
  refine ⟨fun status statusText bodyText => rfl,
    fun status statusText bodyText => rfl, ?_, ?_, ?_⟩
  · intro status statusText bodyText m
    refine ⟨rfl, rfl, ?_, rfl⟩
    exact ⟨"Failed to " ++ (if isEditing then "update" else "add") ++
      " product: ", rfl⟩
  · intro status statusText bodyText parse hne
    refine ⟨rfl, rfl, ?_, rfl⟩
    refine ⟨"Failed to " ++ (if isEditing then "update" else "add") ++
      " product: " ++ ("Server returned status " ++ toString status ++
        ". Error: "), ?_⟩
    simp [productEditOnSubmit, hne, String.append_assoc]
  · intro m parse
    refine ⟨rfl, rfl, ?_, rfl⟩
    exact ⟨"Failed to " ++ (if isEditing then "update" else "add") ++
      " product: ", rfl⟩

/-- Witness for C7 (amended) at a concrete failing edit submission. -/
theorem c7_product_edit_submit_outcomes_witness :
    (productEditOnSubmit true productFormDefaults (some "img")
        (FetchOutcome.response false 400 "Bad Request" "price must be a number")
        JsonParseOutcome.parsed).1 = productFormDefaults ∧
    (productEditOnSubmit true productFormDefaults (some "img")
        (FetchOutcome.response false 400 "Bad Request" "price must be a number")
        JsonParseOutcome.parsed).2.1.variant = "danger" :=
  have h := (c7_product_edit_submit_outcomes true productFormDefaults
    (some "img")).2.2.2.1 400 "Bad Request" "price must be a number"
    JsonParseOutcome.parsed (by decide)
  ⟨h.1, h.2.1⟩

end EcomAdmin
